import Mathlib

/-!
Verification development for the typed-webext messaging library
(`src/message.ts`, `src/stream.ts`, `src/util/*`).

The TypeScript source is shallowly embedded: every definition below is a
direct transcription of the corresponding function in the source files,
with JavaScript values represented by explicit inductive types.  Payload
data is kept generic in a type `α`; JavaScript `undefined` payloads are
`Option α`.  Error (de)serialization (the `serialize-error` package) is an
external collaborator treated as an opaque bijection, modelled as the
identity on `ErrObj`.
-/

namespace TypedWebext

/-- A JavaScript `Error` object as it matters to this protocol: its
`message` and its optional `cause` (an arbitrary value of payload type
`α`).  This is also the shape of the `ErrorObject` produced by
`serialize-error`. -/
structure ErrObj (α : Type) where
  message : String
  cause : Option α
deriving DecidableEq, Repr

/-- A value thrown by JavaScript code: either an `Error` instance or any
other value (`throw 42`). -/
inductive Thrown (α : Type) where
  | err (e : ErrObj α)
  | nonError (v : α)
deriving DecidableEq, Repr

/-- `serializeError` from the `serialize-error` package.  The spec (§6)
treats it as an opaque bijection; it is modelled as the identity on the
error-object shape. -/
def serializeError (e : ErrObj α) : ErrObj α := e

/-- `deserializeError`, inverse of `serializeError`. -/
def deserializeError (e : ErrObj α) : ErrObj α := e

/-- A response object produced by `webextHandleMessage`'s `sendResponse`:
either `{ data }` (the `data` field may be JS `undefined`, hence
`Option α`) or `{ error }` with a serialized error. -/
inductive Res (α : Type) where
  | withData (d : Option α)
  | withError (e : ErrObj α)
deriving DecidableEq, Repr

/-- What `browser.runtime.sendMessage` / `browser.tabs.sendMessage`
resolve with on the calling side: the transport's own `null` and
`undefined` sentinels, or an actual response object. -/
inductive TransportRes (α : Type) where
  | null
  | undef
  | res (r : Res α)
deriving DecidableEq, Repr

/-- The error thrown by `sendMessage` when the transport answers `null`
(`src/message.ts:467-471`): multiple async `runtime.onMessage` listeners
answered.  The message names the channel `id`. -/
def ambiguousListenerError (id : String) (α : Type) : ErrObj α :=
  { message := "null from runtime.sendMessage. Maybe multiple async runtime.onMessage listeners for message \"" ++ id ++ "\"."
    cause := none }

/-- The error thrown by `sendMessage` when the transport answers
`undefined` (`src/message.ts:473-476`): no listener for the channel.  The
message names the channel `id`. -/
def noListenerError (id : String) (α : Type) : ErrObj α :=
  { message := "undefined from runtime.sendMessage. No listener for message \"" ++ id ++ "\". or the listener return undefined."
    cause := none }

/-- The response-interpretation tail of `sendMessage`
(`src/message.ts:466-482`): `null` throws the multiple-listener error,
`undefined` throws the no-listener error, a response owning an `error`
key rethrows the deserialized error, otherwise the call resolves with
`res.data`. -/
def sendMessageInterpret (id : String) : TransportRes α → Except (ErrObj α) (Option α)
  | .null => .error (ambiguousListenerError id α)
  | .undef => .error (noListenerError id α)
  | .res (.withError e) => .error (deserializeError e)
  | .res (.withData d) => .ok d

/-! ### Channel registries

`src/message.ts` keeps `listenersMap : Map<string, MsgCallback>` and
`src/stream.ts` keeps `listeners : Map<string, StreamCallback>`.  A JS
`Map` with string keys is modelled as an association list with unique
keys written through `regSet` / `regDelete`. -/

/-- A JS `Map<string, H>`. -/
def Registry (H : Type) := List (String × H)

/-- `Map.prototype.get`. -/
def regGet (r : Registry H) (id : String) : Option H :=
  match r with
  | [] => none
  | (k, v) :: rest => if k = id then some v else regGet rest id

/-- `Map.prototype.set`: replaces the entry for an existing key, appends
otherwise. -/
def regSet (r : Registry H) (id : String) (v : H) : Registry H :=
  match r with
  | [] => [(id, v)]
  | (k, w) :: rest => if k = id then (k, v) :: rest else (k, w) :: regSet rest id v

/-- `Map.prototype.delete`. -/
def regDelete (r : Registry H) (id : String) : Registry H :=
  match r with
  | [] => []
  | (k, w) :: rest => if k = id then rest else (k, w) :: regDelete rest id

/-- The unregister closure returned by a non-passive `onMessage`
registration.  It captures only the channel `id` (the closure body is
`() => listenersMap.delete(id)`), or nothing at all when the
registration was void because the abort signal was already aborted
(`return () => { }`). -/
inductive Disposer where
  | deleteKey (id : String)
  | noop
deriving DecidableEq, Repr

/-- Running a disposer against the current registry. -/
def runDisposer (r : Registry H) : Disposer → Registry H
  | .deleteKey id => regDelete r id
  | .noop => r

/-- The error message thrown by the non-passive branch of `onMessage`
(`src/message.ts:565`). -/
def duplicateListenerMsg (id : String) : String :=
  "Message ID \"" ++ id ++ "\" already has a listener."

/-- The non-passive branch of `onMessage` (`src/message.ts:534-577`),
acting on the exclusive-listener map.  Input `signalAborted` models
`options.signal?.aborted`.  Returns the updated map together with either
the thrown error message or the returned unregister closure.  The
teardown attached to the abort signal is the same `removeListener`
closure, hence the same `Disposer`. -/
def onMessageExclusive (r : Registry H) (id : String) (cb : H) (signalAborted : Bool) :
    Registry H × Except String Disposer :=
  if signalAborted then
    (r, .ok .noop)
  else
    match regGet r id with
    | some _ => (r, .error (duplicateListenerMsg id))
    | none => (regSet r id cb, .ok (.deleteKey id))

/-- The error message thrown by `onOpenStreamImpl`
(`src/stream.ts:204`). -/
def duplicateChannelMsg (channel : String) : String :=
  "Channel \"" ++ channel ++ "\" already has a listener."

/-- `onOpenStreamImpl` (`src/stream.ts:198-209`), acting on the stream
channel registry.  Same structure as the exclusive `onMessage` branch,
without a signal option. -/
def onOpenStreamImpl (r : Registry H) (channel : String) (cb : H) :
    Registry H × Except String Disposer :=
  match regGet r channel with
  | some _ => (r, .error (duplicateChannelMsg channel))
  | none => (regSet r channel cb, .ok (.deleteKey channel))

/-! ### Envelopes and routing -/

/-- The `tabId` option of `sendMessage`: a concrete tab id, the string
`'sender'`, or the string `'active'` (`src/message.ts:385`).  JS
`undefined` is `Option.none` at use sites. -/
inductive TabSpec where
  | num (n : Nat)
  | sender
  | active
deriving DecidableEq, Repr

/-- The `frameId` option: a concrete frame id or `'sender'`
(`src/message.ts:386`). -/
inductive FrameSpec where
  | num (n : Nat)
  | sender
deriving DecidableEq, Repr

/-- The `destination` option (`src/message.ts:393`). -/
inductive Dest where
  | contentScript
  | sidebar
deriving DecidableEq, Repr

/-- `Runtime.MessageSender`.  `tab` is `none` when the sender has no
tab; a present tab's `id` may itself be absent, hence
`Option (Option Nat)`.  `name` is an identity marker standing for the
remaining sender fields (URL, extension id, ...); it plays no role in
the code, only in stating which sender a handler observed. -/
structure Sender where
  tab : Option (Option Nat)
  frameId : Option Nat
  name : String
deriving DecidableEq, Repr

/-- The payload of a forward envelope, read back by
`handleForwardMessage` (`src/message.ts:683-689`). -/
structure ForwardPayload (α : Type) where
  tabId : Option TabSpec
  frameId : Option FrameSpec
  id : String
  data : Option α
  destination : Option Dest
deriving DecidableEq, Repr

/-- The `data` field of an envelope: a plain payload (possibly JS
`undefined`) or a nested forward payload. -/
inductive EnvBody (α : Type) where
  | plain (data : Option α)
  | forward (p : ForwardPayload α)
deriving DecidableEq, Repr

/-- The wire-level unit sent over the one-shot channel.  `marker` is
the presence of `[MessageIdentifierKey]: 1`; `sender` is the embedded
original sender added by the background relay. -/
structure Envelope (α : Type) where
  marker : Bool
  id : String
  body : EnvBody α
  sender : Option Sender := none
  destination : Option Dest := none
deriving DecidableEq, Repr

/-- The reserved forwarding channel id (`src/message.ts:343`). -/
def BackgroundForwardMessageId : String := "__webext_forward_tabs_message__"

/-- The result of `browser.tabs.query({active: true, currentWindow: true})`
as it matters to `getActiveTabId`: no tab, a tab without an id, or a tab
with id `n`. -/
def ActiveTabQuery := Option (Option Nat)

/-- `getActiveTabId` (`src/util/index.ts`): throws `'No active tab'`
when the query returns no tab and `'No active tab id'` when the tab has
no id. -/
def getActiveTabId (q : ActiveTabQuery) : Except (ErrObj α) Nat :=
  match q with
  | none => .error { message := "No active tab", cause := none }
  | some none => .error { message := "No active tab id", cause := none }
  | some (some n) => .ok n

/-- The capabilities of the sending context that `sendMessage` consults:
its context classification, whether `browser.tabs.sendMessage` is
available, and the current active-tab query result. -/
structure SendCtx where
  isContentScript : Bool
  tabsApiAvailable : Bool
  activeTab : ActiveTabQuery

/-- The transport chosen by `sendMessage` for one call, together with
the envelope it posts. -/
inductive RouteResult (α : Type) where
  | forwardRelay (env : Envelope α)
  | background (env : Envelope α)
  | toTab (tab : Nat) (frame : Option Nat) (env : Envelope α)
  | fail (e : ErrObj α)
deriving DecidableEq, Repr

/-- The forward envelope built by `sendMessage`'s relay branches
(`src/message.ts:413-424` and `452-464`). -/
def forwardEnvelope (id : String) (data : Option α) (tabId : Option TabSpec)
    (frameId : Option FrameSpec) (destination : Option Dest) : Envelope α :=
  { marker := true
    id := BackgroundForwardMessageId
    body := .forward { tabId, frameId, id, data, destination } }

/-- The plain envelope built by `sendMessage`'s direct branches
(`src/message.ts:427-432` and `440-449`). -/
def plainEnvelope (id : String) (data : Option α) (destination : Option Dest) : Envelope α :=
  { marker := true, id, body := .plain data, destination }

/-- The routing part of `sendMessage` (`src/message.ts:412-464`),
transcribing the four branches in source order:
1. `destination === 'content-script' && isContentScript` — forward via
   the background;
2. `tabId === undefined` — straight to the background;
3. `tabId !== 'sender' && frameId !== 'sender' && isTabsApiAvailable()`
   — `tabs.sendMessage`, resolving `'active'` through `getActiveTabId`;
4. otherwise — forward via the background. -/
def sendRoute (ctx : SendCtx) (id : String) (data : Option α)
    (tabId : Option TabSpec) (frameId : Option FrameSpec)
    (destination : Option Dest) : RouteResult α :=
  if destination = some .contentScript ∧ ctx.isContentScript then
    .forwardRelay (forwardEnvelope id data tabId frameId destination)
  else
    match tabId with
    | none => .background (plainEnvelope id data destination)
    | some t =>
      if t ≠ .sender ∧ frameId ≠ some .sender ∧ ctx.tabsApiAvailable then
        match (match t with
               | .active => getActiveTabId ctx.activeTab
               | .num n => .ok n
               | .sender => .ok 0) with  -- `.sender` is unreachable: the guard above excludes it
        | .error e => .fail e
        | .ok n =>
          .toTab n
            (match frameId with
             | some (.num f) => some f
             | _ => none)
            (plainEnvelope id data destination)
      else
        .forwardRelay (forwardEnvelope id data (some t) frameId destination)

/-- The routing decision as the specification words it (spec §4.2 /
claim C6), written independently of `sendRoute` for comparison: four
transports tested in priority order — (1) destination `'content-script'`
from a content-script context wraps a relay envelope; (2) no tab target
goes straight to the background; (3) a tab target that is not
`'sender'`, with no `'sender'` frame, when the tabs API is available,
goes directly to the resolved tab/frame, `'active'` resolving to the
current active tab id and failing when there is none; (4) anything else
wraps a relay envelope. -/
def routeSpecClaim (ctx : SendCtx) (id : String) (data : Option α)
    (tabId : Option TabSpec) (frameId : Option FrameSpec)
    (destination : Option Dest) : RouteResult α :=
  if destination = some .contentScript ∧ ctx.isContentScript = true then
    .forwardRelay (forwardEnvelope id data tabId frameId destination)
  else if tabId = none then
    .background (plainEnvelope id data destination)
  else if tabId ≠ some .sender ∧ frameId ≠ some .sender ∧ ctx.tabsApiAvailable = true then
    match tabId with
    | some (.num n) =>
      .toTab n
        (match frameId with
         | some (.num f) => some f
         | _ => none)
        (plainEnvelope id data destination)
    | some .active =>
      match getActiveTabId ctx.activeTab with
      | .error e => .fail e
      | .ok n =>
        .toTab n
          (match frameId with
           | some (.num f) => some f
           | _ => none)
          (plainEnvelope id data destination)
    | _ => .fail { message := "unreachable", cause := none }  -- excluded by the two guards above
  else
    .forwardRelay (forwardEnvelope id data tabId frameId destination)

/-! ### Inbound dispatch (`webextHandleMessage`) and the background
relay (`handleForwardMessage`) -/

/-- The argument object handed to listeners and passive listeners
(`src/message.ts:633-637` and `656-661`): `{ id, data, sender,
originalSender: message.sender }`.  `data` is whatever the envelope
carried. -/
structure MessageArg (α : Type) where
  id : String
  data : EnvBody α
  sender : Sender
  originalSender : Option Sender
deriving DecidableEq, Repr

/-- An exclusive listener: may return a value (possibly JS `undefined`)
or throw. -/
def Handler (α : Type) := MessageArg α → Except (Thrown α) (Option α)

/-- A passive listener: return value ignored; may throw. -/
def PassiveCb (α : Type) := MessageArg α → Except (Thrown α) Unit

/-- What happened to one passive listener during the dispatch loop
(`src/message.ts:631-644`): it ran to completion, or it threw and the
error was caught and logged by `console.error`. -/
inductive ObsRun (α : Type) where
  | completed
  | logged (e : Thrown α)
deriving DecidableEq, Repr

/-- The `for (const cb of passiveListeners)` loop with its per-iteration
`try`/`catch` (`src/message.ts:631-644`): every callback is invoked;
a throw is recorded (logged) and the loop continues. -/
def runPassiveLoop (obs : List (PassiveCb α)) (arg : MessageArg α) : List (ObsRun α) :=
  match obs with
  | [] => []
  | cb :: rest =>
    (match cb arg with
     | .ok _ => ObsRun.completed
     | .error e => ObsRun.logged e) :: runPassiveLoop rest arg

/-- The catch clause of the listener invocation
(`src/message.ts:663-665`): an `Error` instance is serialized as-is, any
other thrown value is wrapped in `new Error('Unknown error',
{ cause: error })`. -/
def wrapCaught : Thrown α → ErrObj α
  | .err e => e
  | .nonError v => { message := "Unknown error", cause := some v }

/-- A message-handling context: its classification flags and its two
listener maps (`src/message.ts:485-486`, `582-586`). -/
structure MsgContext (α : Type) where
  isBackground : Bool
  isSidepanel : Bool
  isContentScript : Bool
  listeners : Registry (Handler α)
  passiveListeners : Registry (List (PassiveCb α))

/-- What one non-relay dispatch did: the per-observer log, the argument
the exclusive listener was invoked with (if any), and what the sender's
transport promise resolves with (`undef` models returning without
calling `sendResponse`). -/
structure DispatchTrace (α : Type) where
  observerRuns : List (ObsRun α)
  listenerCall : Option (MessageArg α)
  result : TransportRes α
deriving DecidableEq, Repr

/-- The non-relay part of `webextHandleMessage`
(`src/message.ts:591-669`): marker check, destination filtering, the
passive-listener loop, then the exclusive listener whose value or
caught error becomes the response. -/
def webextHandleMessage (ctx : MsgContext α) (env : Envelope α) (sender : Sender) :
    DispatchTrace α :=
  if env.marker = false then
    { observerRuns := [], listenerCall := none, result := .undef }
  else if env.destination = some .sidebar ∧ ctx.isSidepanel = false then
    { observerRuns := [], listenerCall := none, result := .undef }
  else if env.destination = some .contentScript ∧ ctx.isContentScript = false then
    { observerRuns := [], listenerCall := none, result := .undef }
  else
    let arg : MessageArg α :=
      { id := env.id, data := env.body, sender, originalSender := env.sender }
    let runs := runPassiveLoop ((regGet ctx.passiveListeners env.id).getD []) arg
    match regGet ctx.listeners env.id with
    | none => { observerRuns := runs, listenerCall := none, result := .undef }
    | some listener =>
      { observerRuns := runs
        listenerCall := some arg
        result := .res (match listener arg with
                        | .ok d => .withData d
                        | .error t => .withError (serializeError (wrapCaught t))) }

/-- The delivery action the background relay resolves with: a direct
`tabs.sendMessage` to a target tab/frame (the tab id may be JS
`undefined` when the payload had none — the `!` assertion in the source
is erased at runtime), or a `runtime.sendMessage` broadcast for an
unaddressed content-script destination. -/
inductive ForwardAction (α : Type) where
  | toTab (tab : Option Nat) (frame : Option Nat) (env : Envelope α)
  | broadcast (env : Envelope α)
deriving DecidableEq, Repr

/-- `handleForwardMessage` (`src/message.ts:671-730`).  Returns `none`
when it does not claim the envelope (missing marker or non-forward id,
or a non-forward body — the forwarding sender only ever posts forward
payloads under `BackgroundForwardMessageId`).  Otherwise resolves the
target tab (`'sender'` reads `sender.tab.id`, throwing when the sender
has no tab; `'active'` queries the active tab) and frame, and either
rejects with the resolution error or resolves with the re-addressed
envelope carrying the original sender embedded. -/
def handleForwardMessage (env : Envelope α) (sender : Sender) (activeTab : ActiveTabQuery) :
    Option (Except (ErrObj α) (ForwardAction α)) :=
  if env.marker = false then none
  else if env.id ≠ BackgroundForwardMessageId then none
  else
    match env.body with
    | .plain _ => none
    | .forward p =>
      let targetTab : Except (ErrObj α) (Option Nat) :=
        match p.tabId with
        | some .sender =>
          (match sender.tab with
           | none => .error { message := "Cannot read properties of undefined (reading 'id')", cause := none }
           | some tid => .ok tid)
        | some .active => (getActiveTabId activeTab).map some
        | some (.num n) => .ok (some n)
        | none => .ok none
      some (match targetTab with
        | .error e => .error e
        | .ok tid =>
          let targetFrameId : Option Nat :=
            match p.frameId with
            | some .sender => sender.frameId
            | some (.num f) => some f
            | none => none
          let inner : Envelope α :=
            { marker := true, id := p.id, body := .plain p.data
              sender := some sender, destination := p.destination }
          if p.destination = some .contentScript ∧ tid = none then
            .ok (.broadcast inner)
          else
            .ok (.toTab tid targetFrameId inner))

/-- The outcome of feeding one envelope to `webextHandleMessage` in a
context, including the background's relay branch
(`src/message.ts:611-616`): when the context is the background and
`handleForwardMessage` claims the envelope, its result is the dispatch
result and nothing else runs. -/
inductive FullOutcome (α : Type) where
  | relayed (r : Except (ErrObj α) (ForwardAction α))
  | dispatched (t : DispatchTrace α)
deriving Repr

/-- `webextHandleMessage` with the relay branch included. -/
def webextHandleMessageFull (ctx : MsgContext α) (env : Envelope α) (sender : Sender)
    (activeTab : ActiveTabQuery) : FullOutcome α :=
  if env.marker = false then
    .dispatched { observerRuns := [], listenerCall := none, result := .undef }
  else
    match (if ctx.isBackground then handleForwardMessage env sender activeTab else none) with
    | some r => .relayed r
    | none => .dispatched (webextHandleMessage ctx env sender)

/-! ### The `iter` async generator of a stream session
(`src/stream.ts:159-181`)

The generator is embedded as an explicit state machine driven by the
four events the single-threaded event loop can deliver to it: a consumer
pull (`next()`), an inbound data frame, an inbound error frame, and the
port disconnecting.  The transcription follows the source exactly:

* the generator body (and hence the registration of the three port
  listeners) does not run until the first pull — `notStarted`;
* after registering the listeners, and before entering the
  `try`/`finally`, the body sends the optional initial message:
  `if (args.length) port.postMessage({ data: args[0] })`
  (`src/stream.ts:167`).  When the port has already disconnected this
  `postMessage` throws: the first pull rejects with that error and the
  `finally` cleanups never run, leaking the three listeners —
  `initThrow`;
* `while (connected)` allocates one `Promise.withResolvers` deferred per
  iteration and points the shared `resolve`/`reject` slots at it; the
  consumer's pull awaits that deferred — `awaitingFrame`;
* a data frame calls the current `resolve` slot: it settles the pending
  deferred (delivering the value to the pending pull) and the generator
  stays suspended at the `yield` until the next pull — `betweenPulls`.
  There is no queue: while in `betweenPulls` (or before the first pull)
  the slot points at an already-settled deferred (or at `noop`), so a
  frame's value is discarded;
* an error frame calls `reject`: the awaited deferred rejects, the
  `yield` rethrows inside the generator, the `finally` removes the three
  listeners and the consumer's pull rejects — `doneErr`;
* `port.onDisconnect` sets `connected = false` (createStream listener,
  `src/stream.ts:97-99`) and the iter's own `onClose` listener resets
  both slots to `noop` (`src/stream.ts:164`).  If a pull was pending its
  deferred can now never settle — `stuck`;
* a pull finding `connected = false` exits the loop, runs the `finally`
  cleanups and finishes normally — `done`. -/

/-- The phase of the `iter` generator.  `initThrow` is the terminal
phase reached when the first pull of `iter(initialMsg)` finds the port
already disconnected: the unguarded `postMessage` of the initial
message throws before the `try`/`finally` is entered, so the pull
rejects and the listeners registered just above it are never removed. -/
inductive IterPhase (α : Type) where
  | notStarted
  | awaitingFrame
  | betweenPulls
  | stuck
  | initThrow
  | done
  | doneErr (e : ErrObj α)
deriving DecidableEq, Repr

/-- The observable state of one `iter` consumer: its phase, the
`connected` flag of the surrounding `createStream`, whether the
consumer invoked `iter` with an initial message argument
(`args.length` in the source), every data frame that arrived at the
port since iteration began, every value delivered to a consumer pull,
and whether the `finally` cleanups have run. -/
structure IterState (α : Type) where
  phase : IterPhase α
  connected : Bool
  initialMsg : Bool
  arrived : List α
  delivered : List α
  cleanedUp : Bool
deriving DecidableEq, Repr

/-- The state before the consumer's first pull of `iter()` (no initial
message), with the port connected. -/
def iterInit (α : Type) : IterState α :=
  { phase := .notStarted, connected := true, initialMsg := false
    arrived := [], delivered := [], cleanedUp := false }

/-- The state before the consumer's first pull of `iter(initialMsg)`,
with the port connected. -/
def iterInitWithMsg (α : Type) : IterState α :=
  { phase := .notStarted, connected := true, initialMsg := true
    arrived := [], delivered := [], cleanedUp := false }

/-- The events the event loop can deliver to the generator. -/
inductive IterEvent (α : Type) where
  | pull
  | frame (v : α)
  | errFrame (e : ErrObj α)
  | disconnect
deriving DecidableEq, Repr

/-- One step of the `iter` machine.  The first pull (`notStarted`)
registers the listeners, then — when `iter` was given an initial
message — posts it before the `try`/`finally`: on a live port the post
succeeds and the loop is entered; on a disconnected port it throws, so
the pull rejects with the cleanups never run (`initThrow`).  Without an
initial message a first pull on a dead port just falls through
`while (connected)` into the `finally` and ends normally. -/
def iterStep (s : IterState α) : IterEvent α → IterState α
  | .pull =>
    match s.phase with
    | .notStarted =>
      if s.connected then { s with phase := .awaitingFrame }
      else if s.initialMsg then { s with phase := .initThrow }
      else { s with phase := .done, cleanedUp := true }
    | .betweenPulls =>
      if s.connected then { s with phase := .awaitingFrame }
      else { s with phase := .done, cleanedUp := true }
    | _ => s
  | .frame v =>
    match s.phase with
    | .awaitingFrame =>
      { s with phase := .betweenPulls, arrived := s.arrived ++ [v],
               delivered := s.delivered ++ [v] }
    | .notStarted | .betweenPulls | .stuck | .initThrow =>
      { s with arrived := s.arrived ++ [v] }
    | _ => s
  | .errFrame e =>
    match s.phase with
    | .awaitingFrame => { s with phase := .doneErr e, cleanedUp := true }
    | _ => s
  | .disconnect =>
    match s.phase with
    | .awaitingFrame => { s with phase := .stuck, connected := false }
    | .done | .doneErr _ => { s with connected := false }
    | _ => { s with connected := false }

/-- Running the machine over a list of events. -/
def iterRun (s : IterState α) (evs : List (IterEvent α)) : IterState α :=
  evs.foldl iterStep s

/-! ### Context classifiers (`src/util/*`, `isBackgroundPage`,
`isSidepanelPageSync`, `isContentScriptPage`)

The host introspection surface is a record: each global or API object
that may be absent is an `Option`, and `parseURL` models the `URL`
constructor (`none` = the constructor throws).  A classifier that can
throw outside any `try`/`catch` is `Except`-valued; code inside a
`try`/`catch` is evaluated in `Except` and the catch clause collapses
every error to `false`. -/

/-- The pathname/origin projection of a parsed URL, the only parts the
classifiers compare. -/
structure URLParts where
  pathname : String
  origin : String
deriving DecidableEq, Repr

/-- The manifest fields the classifiers read.  `backgroundScripts` is
`manifest.background.scripts` (`none` = `background` or `scripts`
absent, so the access throws); `sidePanelDefaultPath` is
`manifest.side_panel.default_path`. -/
structure Manifest where
  backgroundScripts : Option (List String)
  sidePanelDefaultPath : Option String

/-- The host environment a classifier can introspect. -/
structure Host where
  /-- `navigator` (`none` = the global is absent, referencing it throws);
  the payload is whether `'serviceWorker' in navigator`. -/
  navigator : Option Bool
  /-- `browser.extension` (`none` = absent, property access throws); the
  payload is the truthiness of `browser.extension.getViews`. -/
  extensionGetViews : Option Bool
  /-- `browser.runtime` (`none` = absent, property access throws); the
  payload is `browser.runtime.id` (`none` = JS `undefined`). -/
  runtimeId : Option (Option String)
  /-- whether `typeof browser.tabs?.sendMessage === 'function'`; the
  optional chain never throws. -/
  tabsSendMessageIsFunction : Bool
  /-- `window.location.href` (`none` = no `window` global). -/
  windowLocationHref : Option String
  /-- `browser.runtime.getManifest()` (`none` = the call throws). -/
  manifest : Option Manifest
  /-- `browser.runtime.getURL`. -/
  getURL : String → String
  /-- the `URL` constructor (`none` = it throws). -/
  parseURL : String → Option URLParts

/-- A JS exception raised by the classifiers; the payload is a
diagnostic message. -/
def orThrow (msg : String) : Option β → Except String β
  | none => .error msg
  | some b => .ok b

/-- `scripts.some(script => ...)` inside `isBackgroundPage`
(`src/storage.test.ts:136-139`): a throw inside the callback propagates
out of `Array.prototype.some`. -/
def scriptsMatch (h : Host) (cur : URLParts) : List String → Except String Bool
  | [] => .ok false
  | s :: rest => do
    let u ← orThrow "Invalid URL" (h.parseURL (h.getURL s))
    if cur.pathname = u.pathname ∧ cur.origin = u.origin then .ok true
    else scriptsMatch h cur rest

/-- The `try` block of `isBackgroundPage`'s Firefox branch
(`src/storage.test.ts:132-142`). -/
def isBackgroundPageTry (h : Host) : Except String Bool := do
  let href ← orThrow "window is not defined" h.windowLocationHref
  let cur ← orThrow "Invalid URL" (h.parseURL href)
  let m ← orThrow "getManifest threw" h.manifest
  let scripts ← orThrow "Cannot read properties of undefined (reading 'scripts')" m.backgroundScripts
  scriptsMatch h cur scripts

/-- The guarded Firefox branch of `isBackgroundPage`: the `try`/`catch`
collapses every failure to `false`. -/
def bgFirefoxResult (h : Host) : Bool :=
  match isBackgroundPageTry h with
  | .ok b => b
  | .error _ => false

/-- `isBackgroundPage` (`src/storage.test.ts:125-143`).  The Chromium
check `!('serviceWorker' in navigator) && !browser.extension.getViews`
runs outside the `try`/`catch`: referencing an absent `navigator`
throws, and when the left conjunct is true (`'serviceWorker' in
navigator` is false), reading `getViews` off an absent
`browser.extension` throws.  When the left conjunct is false the `&&`
short-circuits and `browser.extension` is never touched.  The Firefox
branch is guarded. -/
def isBackgroundPage (h : Host) : Except String Bool :=
  match h.navigator with
  | none => .error "navigator is not defined"
  | some sw =>
    if sw then .ok (bgFirefoxResult h)
    else
      match h.extensionGetViews with
      | none => .error "Cannot read properties of undefined (reading 'getViews')"
      | some gv =>
        if gv then .ok (bgFirefoxResult h) else .ok true

/-- The `try` block of `isSidepanelPageSync`
(`src/storage.test.ts:107-115`). -/
def isSidepanelPageSyncTry (h : Host) : Except String Bool := do
  let m ← orThrow "getManifest threw" h.manifest
  let path ← orThrow "Cannot read properties of undefined (reading 'default_path')" m.sidePanelDefaultPath
  let sp ← orThrow "Invalid URL" (h.parseURL (h.getURL path))
  let href ← orThrow "window is not defined" h.windowLocationHref
  let cur ← orThrow "Invalid URL" (h.parseURL href)
  pure (decide (cur.pathname = sp.pathname ∧ cur.origin = sp.origin))

/-- `isSidepanelPageSync` (`src/storage.test.ts:106-119`): the whole
body is inside `try`/`catch`, so it is a total boolean function. -/
def isSidepanelPageSync (h : Host) : Bool :=
  match isSidepanelPageSyncTry h with
  | .ok b => b
  | .error _ => false

/-- `isContentScriptPage` (`src/util/isContentScriptPage.ts:4-6`):
`!!browser.runtime.id && typeof browser.tabs?.sendMessage !==
'function'`, with no `try`/`catch`; reading `id` off an absent
`browser.runtime` throws. -/
def isContentScriptPage (h : Host) : Except String Bool :=
  match h.runtimeId with
  | none => .error "Cannot read properties of undefined (reading 'id')"
  | some rid =>
    .ok ((match rid with
          | none => false
          | some s => !(decide (s = ""))) && !h.tabsSendMessageIsFunction)

/-! ### Concrete instances used by the scenario theorems and
witnesses -/

/-- Content-script context A of the relay scenario (spec §8): no tabs
API, classified as a content script. -/
def ctxA : SendCtx :=
  { isContentScript := true, tabsApiAvailable := false, activeTab := none }

/-- The `Runtime.MessageSender` describing context A, as the background
sees it (A lives in tab 3, frame 0). -/
def senderA : Sender := { tab := some (some 3), frameId := some 0, name := "content-script-A" }

/-- The sender observed by a tab receiving a message posted by the
background (no tab of its own). -/
def bgSender : Sender := { tab := none, frameId := none, name := "background" }

/-- Context B's exclusive handler for `"ping"`: returns `14`. -/
def handlerB : Handler Nat := fun _ => .ok (some 14)

/-- Content-script context B in tab 5, with the `"ping"` handler
registered. -/
def ctxB : MsgContext Nat :=
  { isBackground := false, isSidepanel := false, isContentScript := true
    listeners := [("ping", handlerB)], passiveListeners := [] }

/-- The background context of the relay scenario: no handlers, relay
enabled. -/
def bgCtx : MsgContext Nat :=
  { isBackground := true, isSidepanel := false, isContentScript := false
    listeners := [], passiveListeners := [] }

/-- The unwrapped envelope the background forwards to tab 5 in the
relay scenario, with the original sender embedded. -/
def relayedEnvelope : Envelope Nat :=
  { marker := true, id := "ping", body := .plain (some 7)
    sender := some senderA, destination := none }

/-- A host whose `navigator` lacks `serviceWorker`, whose
`browser.extension` and `browser.runtime` are absent, and whose every
other introspection step fails. -/
def badHost : Host :=
  { navigator := some false
    extensionGetViews := none
    runtimeId := none
    tabsSendMessageIsFunction := false
    windowLocationHref := none
    manifest := none
    getURL := fun s => s
    parseURL := fun _ => none }

/-! ## Helper lemmas -/

/-- Setting a fresh key and then deleting it restores the map (JS `Map`
keys are unique, so the freshness hypothesis always holds for the
library's registries). -/
theorem regDelete_regSet (r : Registry H) (id : String) (v : H)
    (h : regGet r id = none) : regDelete (regSet r id v) id = r := by
  induction r with
  | nil => simp [regSet, regDelete]
  | cons p rest ih =>
    obtain ⟨k, w⟩ := p
    by_cases hk : k = id
    · simp [regGet, hk] at h
    · simp only [regGet, if_neg hk] at h
      simp [regSet, regDelete, hk, ih h]

/-- One step of the `iter` machine preserves the subsequence relation
between delivered values and arrived frames. -/
theorem iterStep_delivered_sublist (s : IterState α) (e : IterEvent α)
    (h : s.delivered.Sublist s.arrived) :
    (iterStep s e).delivered.Sublist (iterStep s e).arrived := by
  cases e with
  | pull =>
    cases hp : s.phase <;> unfold iterStep <;> simp only [hp] <;>
      first
        | exact h
        | (split <;> first
            | exact h
            | (split <;> exact h))
  | frame v =>
    cases hp : s.phase <;> unfold iterStep <;> simp only [hp] <;>
      first
        | exact h
        | exact h.append (List.Sublist.refl [v])
        | exact h.trans (List.sublist_append_left _ _)
  | errFrame e =>
    cases hp : s.phase <;> unfold iterStep <;> simp only [hp] <;> exact h
  | disconnect =>
    cases hp : s.phase <;> unfold iterStep <;> simp only [hp] <;> exact h

/-- Trace form of the subsequence invariant. -/
theorem iterRun_delivered_sublist (evs : List (IterEvent α)) (s : IterState α)
    (h : s.delivered.Sublist s.arrived) :
    (iterRun s evs).delivered.Sublist (iterRun s evs).arrived := by
  induction evs generalizing s with
  | nil => exact h
  | cons e rest ih => exact ih _ (iterStep_delivered_sublist s e h)

/-! ## Claim theorems -/

/-- C2: `sendMessage` interprets the transport response by exhaustive
cases: a `{data}` response resolves the call with that data; an
`{error}` response is deserialized and re-thrown as the original
failure (deserialization inverts serialization); a `null` response
rejects with the multiple-responders error and an `undefined` response
rejects with the no-listener error, each naming the channel inside its
message. -/
theorem C2_sendMessage_response_cases (α : Type) (id : String) :
    (∀ d : Option α, sendMessageInterpret id (.res (.withData d)) = .ok d) ∧
    (∀ e : ErrObj α, sendMessageInterpret id (.res (.withError e)) = .error (deserializeError e)) ∧
    (∀ e : ErrObj α, deserializeError (serializeError e) = e) ∧
    sendMessageInterpret id (.null : TransportRes α) = .error (ambiguousListenerError id α) ∧
    sendMessageInterpret id (.undef : TransportRes α) = .error (noListenerError id α) ∧
    (∃ pre post, (ambiguousListenerError id α).message = pre ++ id ++ post) ∧
    (∃ pre post, (noListenerError id α).message = pre ++ id ++ post) :=
  ⟨fun _ => rfl, fun _ => rfl, fun _ => rfl, rfl, rfl,
   ⟨"null from runtime.sendMessage. Maybe multiple async runtime.onMessage listeners for message \"", "\".", rfl⟩,
   ⟨"undefined from runtime.sendMessage. No listener for message \"", "\". or the listener return undefined.", rfl⟩⟩

/-- C3: registering a second exclusive handler for an occupied channel
throws the duplicate-handler error and leaves the registry unchanged;
registering on a free channel succeeds, and after unregistering, a new
registration for the same channel succeeds again.  The stream channel
registry (`onOpenStreamImpl`) behaves the same way. -/
theorem C3_duplicate_exclusive_handler (H : Type) :
    (∀ (r : Registry H) (id : String) (cb h : H), regGet r id = some h →
       onMessageExclusive r id cb false = (r, .error (duplicateListenerMsg id))) ∧
    (∀ (r : Registry H) (id : String) (cb cb2 : H), regGet r id = none →
       onMessageExclusive r id cb false = (regSet r id cb, .ok (.deleteKey id)) ∧
       onMessageExclusive (runDisposer (regSet r id cb) (.deleteKey id)) id cb2 false
         = (regSet r id cb2, .ok (.deleteKey id))) ∧
    (∀ (r : Registry H) (id : String) (cb h : H), regGet r id = some h →
       onOpenStreamImpl r id cb = (r, .error (duplicateChannelMsg id))) ∧
    (∀ (r : Registry H) (id : String) (cb cb2 : H), regGet r id = none →
       onOpenStreamImpl r id cb = (regSet r id cb, .ok (.deleteKey id)) ∧
       onOpenStreamImpl (runDisposer (regSet r id cb) (.deleteKey id)) id cb2
         = (regSet r id cb2, .ok (.deleteKey id))) := by
  refine ⟨?_, ?_, ?_, ?_⟩
  · intro r id cb h hget
    simp [onMessageExclusive, hget]
  · intro r id cb cb2 hget
    refine ⟨by simp [onMessageExclusive, hget], ?_⟩
    simp [runDisposer, regDelete_regSet r id cb hget, onMessageExclusive, hget]
  · intro r id cb h hget
    simp [onOpenStreamImpl, hget]
  · intro r id cb cb2 hget
    refine ⟨by simp [onOpenStreamImpl, hget], ?_⟩
    simp [runDisposer, regDelete_regSet r id cb hget, onOpenStreamImpl, hget]

/-- Witness for C3 at concrete registries. -/
theorem C3_duplicate_exclusive_handler_witness :
    (onMessageExclusive [("a", (0 : Nat))] "a" 1 false
       = ([("a", 0)], .error (duplicateListenerMsg "a"))) ∧
    (onOpenStreamImpl (runDisposer (regSet ([] : Registry Nat) "b" 5) (.deleteKey "b")) "b" 6
       = (regSet ([] : Registry Nat) "b" 6, .ok (.deleteKey "b"))) :=
  ⟨(C3_duplicate_exclusive_handler Nat).1 [("a", 0)] "a" 1 0 (by decide),
   (((C3_duplicate_exclusive_handler Nat).2.2.2 [] "b" 5 6 (by decide)).2)⟩

/-- C9: the unregister closure returned by a non-passive `onMessage`
registration deletes whatever handler currently occupies the channel,
not the one it registered: register `A`, unregister, register `B`; then
running `A`'s disposer (which only captures the channel key) removes
`B`. -/
theorem C9_unregister_deletes_current (H : Type) (c : String) (A B : H) :
    onMessageExclusive ([] : Registry H) c A false = ([(c, A)], .ok (.deleteKey c)) ∧
    runDisposer [(c, A)] (.deleteKey c) = ([] : Registry H) ∧
    onMessageExclusive ([] : Registry H) c B false = ([(c, B)], .ok (.deleteKey c)) ∧
    runDisposer [(c, B)] (.deleteKey c) = ([] : Registry H) ∧
    regGet (runDisposer [(c, B)] (.deleteKey c)) c = none := by
  refine ⟨?_, ?_, ?_, ?_, ?_⟩ <;>
    simp [onMessageExclusive, regGet, regSet, runDisposer, regDelete]

/-- C6: the transport selection of `sendMessage` agrees, for every
input, with the four-way priority rule of the claim (`routeSpecClaim`):
content-script destination from a content script forwards via the
background; no tab id goes straight to the background; a non-`'sender'`
tab with a non-`'sender'` frame and an available tabs API goes directly
to the resolved tab/frame (resolving `'active'`, failing when there is
no active tab); everything else forwards via the background. -/
theorem C6_routing_priority (α : Type) (ctx : SendCtx) (id : String) (data : Option α)
    (tabId : Option TabSpec) (frameId : Option FrameSpec) (destination : Option Dest) :
    sendRoute ctx id data tabId frameId destination
      = routeSpecClaim ctx id data tabId frameId destination := by
  unfold sendRoute routeSpecClaim
  by_cases h1 : destination = some .contentScript ∧ ctx.isContentScript = true
  · simp only [if_pos h1]
  · simp only [if_neg h1]
    cases tabId with
    | none => simp
    | some t =>
      have hne : (some t : Option TabSpec) ≠ none := by simp
      simp only [if_neg hne]
      by_cases h3 : t ≠ TabSpec.sender ∧ frameId ≠ some .sender ∧ ctx.tabsApiAvailable = true
      · have h3' : (some t : Option TabSpec) ≠ some .sender ∧ frameId ≠ some .sender ∧
            ctx.tabsApiAvailable = true := by
          refine ⟨?_, h3.2⟩
          intro hc
          exact h3.1 (Option.some_injective _ hc)
        simp only [if_pos h3, if_pos h3']
        cases t with
        | sender => exact absurd rfl h3.1
        | active => cases getActiveTabId ctx.activeTab <;> rfl
        | num n => rfl
      · have h3' : ¬((some t : Option TabSpec) ≠ some .sender ∧ frameId ≠ some .sender ∧
            ctx.tabsApiAvailable = true) := by
          intro hc
          exact h3 ⟨fun he => hc.1 (congrArg some he), hc.2⟩
        simp only [if_neg h3, if_neg h3']

/-- C7: in the dispatch loop, a passive observer that throws is caught
and recorded (logged) in place; every observer registered after it
still runs (the log has exactly one entry per registered observer, in
order); and the exclusive handler invocation and the sender's response
are computed identically whatever the passive-observer map contains. -/
theorem C7_passive_observer_isolation (α : Type) :
    (∀ (pre post : List (PassiveCb α)) (cb : PassiveCb α) (arg : MessageArg α) (e : Thrown α),
       cb arg = .error e →
       runPassiveLoop (pre ++ cb :: post) arg
         = runPassiveLoop pre arg ++ ObsRun.logged e :: runPassiveLoop post arg) ∧
    (∀ (obs : List (PassiveCb α)) (arg : MessageArg α),
       (runPassiveLoop obs arg).length = obs.length) ∧
    (∀ (ctx : MsgContext α) (pl : Registry (List (PassiveCb α))) (env : Envelope α)
       (sender : Sender),
       (webextHandleMessage { ctx with passiveListeners := pl } env sender).listenerCall
         = (webextHandleMessage { ctx with passiveListeners := [] } env sender).listenerCall ∧
       (webextHandleMessage { ctx with passiveListeners := pl } env sender).result
         = (webextHandleMessage { ctx with passiveListeners := [] } env sender).result) := by
  refine ⟨?_, ?_, ?_⟩
  · intro pre post cb arg e hthrow
    induction pre with
    | nil => simp [runPassiveLoop, hthrow]
    | cons c rest ih => simp [runPassiveLoop, ih]
  · intro obs arg
    induction obs with
    | nil => rfl
    | cons c rest ih => simp [runPassiveLoop, ih]
  · intro ctx pl env sender
    unfold webextHandleMessage
    split
    · exact ⟨rfl, rfl⟩
    · split
      · exact ⟨rfl, rfl⟩
      · split
        · exact ⟨rfl, rfl⟩
        · cases regGet ctx.listeners env.id <;> exact ⟨rfl, rfl⟩

/-- Witness for C7 at a concrete observer list: the first observer
throws `7`, the second still runs. -/
theorem C7_passive_observer_isolation_witness :
    runPassiveLoop ([] ++ (fun _ => .error (.nonError 7)) ::
        [fun _ => .ok ()] : List (PassiveCb Nat))
        { id := "c", data := .plain (some 0), sender := bgSender, originalSender := none }
      = runPassiveLoop [] { id := "c", data := .plain (some 0), sender := bgSender, originalSender := none }
        ++ ObsRun.logged (.nonError 7) ::
          runPassiveLoop [fun _ => .ok ()] { id := "c", data := .plain (some 0), sender := bgSender, originalSender := none } :=
  (C7_passive_observer_isolation Nat).1 [] [fun _ => .ok ()]
    (fun _ => .error (.nonError 7))
    { id := "c", data := .plain (some 0), sender := bgSender, originalSender := none }
    (.nonError 7) rfl

/-- C10: when the exclusive handler throws a value that is not an
`Error` instance, the dispatch replies with a serialized `Error` whose
message is `'Unknown error'` and whose cause is the thrown value, and
the sender's `sendMessage` call rejects with exactly that wrapper. -/
theorem C10_nonerror_wrapped (α : Type) (ctx : MsgContext α) (env : Envelope α)
    (sender : Sender) (listener : Handler α) (v : α)
    (hmarker : env.marker = true)
    (hside : ¬(env.destination = some .sidebar ∧ ctx.isSidepanel = false))
    (hcs : ¬(env.destination = some .contentScript ∧ ctx.isContentScript = false))
    (hlis : regGet ctx.listeners env.id = some listener)
    (hthrow : listener { id := env.id, data := env.body, sender, originalSender := env.sender }
      = .error (.nonError v)) :
    (webextHandleMessage ctx env sender).result
      = .res (.withError (serializeError { message := "Unknown error", cause := some v })) ∧
    sendMessageInterpret env.id (webextHandleMessage ctx env sender).result
      = .error { message := "Unknown error", cause := some v } := by
  have hm : ¬(env.marker = false) := by simp [hmarker]
  unfold webextHandleMessage
  simp only [if_neg hm, if_neg hside, if_neg hcs, hlis, hthrow]
  exact ⟨rfl, rfl⟩

/-- Witness for C10: a handler throwing the bare value `42`. -/
theorem C10_nonerror_wrapped_witness :
    (webextHandleMessage
        { isBackground := false, isSidepanel := false, isContentScript := false
          listeners := [("c", fun _ => .error (.nonError 42))], passiveListeners := [] }
        (plainEnvelope "c" (some 0) none) bgSender).result
      = .res (.withError (serializeError { message := "Unknown error", cause := some (42 : Nat) })) :=
  (C10_nonerror_wrapped Nat
    { isBackground := false, isSidepanel := false, isContentScript := false
      listeners := [("c", fun _ => .error (.nonError 42))], passiveListeners := [] }
    (plainEnvelope "c" (some 0) none) bgSender (fun _ => .error (.nonError 42)) 42
    rfl (by decide) (by decide) rfl rfl).1

/-- C4: the full relay scenario.  Content-script context A (no tabs
API) sends `"ping"` with data `7` to tab 5: the call is wrapped as a
relay envelope to the background; the background relay resolves tab 5
and forwards the unwrapped envelope with the original sender embedded;
context B's exclusive handler for `"ping"` is invoked with
`data = 7` and `originalSender = A`; its return value `14` becomes the
resolution of A's `sendMessage` promise. -/
theorem C4_relay_scenario :
    sendRoute ctxA "ping" (some 7) (some (.num 5)) none none
      = .forwardRelay (forwardEnvelope "ping" (some 7) (some (.num 5)) none none) ∧
    webextHandleMessageFull bgCtx
        (forwardEnvelope "ping" (some 7) (some (.num 5)) none none) senderA none
      = .relayed (.ok (.toTab (some 5) none relayedEnvelope)) ∧
    webextHandleMessage ctxB relayedEnvelope bgSender
      = { observerRuns := []
          listenerCall := some { id := "ping", data := .plain (some 7)
                                 sender := bgSender, originalSender := some senderA }
          result := .res (.withData (some 14)) } ∧
    sendMessageInterpret "ping" (.res (.withData (some 14)) : TransportRes Nat)
      = .ok (some 14) :=
  ⟨rfl, rfl, by decide, rfl⟩

/-- C1 counterexample: the claim that frames arriving between pulls are
queued and eventually delivered is false.  Trace: first pull, frame `1`
(delivered to that pull), frame `2` arriving before the next pull,
second pull.  Frame `2` is discarded — after the second pull only `[1]`
was delivered although `[1, 2]` arrived, and the second pull is still
blocked waiting for a fresh frame. -/
theorem C1_counterexample :
    (iterRun (iterInit Nat) [.pull, .frame 1, .frame 2, .pull]).arrived = [1, 2] ∧
    (iterRun (iterInit Nat) [.pull, .frame 1, .frame 2, .pull]).delivered = [1] ∧
    (iterRun (iterInit Nat) [.pull, .frame 1, .frame 2, .pull]).phase = .awaitingFrame ∧
    (iterRun (iterInit Nat) [.frame 1, .pull]).arrived = [1] ∧
    (iterRun (iterInit Nat) [.frame 1, .pull]).delivered = [] := by
  decide

/-- C1 amended: `iter` keeps no queue.  Delivered values are always a
subsequence of arrived frames (no reordering, duplication or
invention); a data frame arriving while a pull is pending is delivered
to that pull immediately; a data frame arriving in any other phase —
before the first pull, between pulls, after disconnect or after
termination — is dropped. -/
theorem C1_iter_no_queue (α : Type) :
    (∀ (evs : List (IterEvent α)),
       (iterRun (iterInit α) evs).delivered.Sublist (iterRun (iterInit α) evs).arrived) ∧
    (∀ (s : IterState α) (v : α), s.phase = .awaitingFrame →
       (iterStep s (.frame v)).delivered = s.delivered ++ [v] ∧
       (iterStep s (.frame v)).phase = .betweenPulls) ∧
    (∀ (s : IterState α) (v : α), s.phase ≠ .awaitingFrame →
       (iterStep s (.frame v)).delivered = s.delivered) := by
  refine ⟨?_, ?_, ?_⟩
  · intro evs
    exact iterRun_delivered_sublist evs (iterInit α) (List.Sublist.refl [])
  · intro s v hp
    unfold iterStep
    simp [hp]
  · intro s v hp
    obtain ⟨ph, c, im, arr, del, cl⟩ := s
    cases ph <;> first | (exact absurd rfl hp) | rfl

/-- Witness for C1 amended at a concrete state and trace. -/
theorem C1_iter_no_queue_witness :
    (iterRun (iterInit Nat) [.pull, .frame 1, .frame 2]).delivered.Sublist
      (iterRun (iterInit Nat) [.pull, .frame 1, .frame 2]).arrived ∧
    (iterStep (iterRun (iterInit Nat) [.pull]) (.frame 3)).delivered
      = (iterRun (iterInit Nat) [.pull]).delivered ++ [3] ∧
    (iterStep (iterInit Nat) (.frame 3)).delivered = (iterInit Nat).delivered :=
  ⟨(C1_iter_no_queue Nat).1 [.pull, .frame 1, .frame 2],
   ((C1_iter_no_queue Nat).2.1 (iterRun (iterInit Nat) [.pull]) 3 (by decide)).1,
   (C1_iter_no_queue Nat).2.2 (iterInit Nat) 3 (by decide)⟩

/-- C5 counterexample: on a connection drop while a pull is pending the
sequence does not end normally — the pending pull never completes and
the observers registered by `iter` are never released.  After
`[pull, disconnect]` the machine is stuck with its cleanups not run, and
no further consumer pull or disconnect changes that. -/
theorem C5_counterexample :
    (iterRun (iterInit Nat) [.pull, .disconnect]).phase = .stuck ∧
    (iterRun (iterInit Nat) [.pull, .disconnect]).cleanedUp = false ∧
    iterStep (iterRun (iterInit Nat) [.pull, .disconnect]) .pull
      = iterRun (iterInit Nat) [.pull, .disconnect] ∧
    iterStep (iterRun (iterInit Nat) [.pull, .disconnect]) .disconnect
      = iterRun (iterInit Nat) [.pull, .disconnect] := by
  decide

/-- C5 amended: on a close frame or connection drop the sequence does
not always end normally.  If the consumer is between pulls, the next
pull terminates the iteration normally and releases the observers.  If
the consumer has not pulled yet, the first pull of `iter()` without an
initial message also ends normally; but the first pull of
`iter(initialMsg)` throws from the unguarded initial `postMessage` on
the dead port and the observers it just registered are never released.
And a disconnect while a pull is pending leaves that pull unsettled
forever (the `onClose` handler resets the resolver slots to `noop`
without settling the pending deferred) with the observers not
released. -/
theorem C5_disconnect_termination (α : Type) :
    (∀ s : IterState α,
       s.phase = .betweenPulls ∨ (s.phase = .notStarted ∧ s.initialMsg = false) →
       (iterStep (iterStep s .disconnect) .pull).phase = .done ∧
       (iterStep (iterStep s .disconnect) .pull).cleanedUp = true ∧
       (iterStep (iterStep s .disconnect) .pull).delivered = s.delivered) ∧
    (∀ s : IterState α, s.phase = .notStarted → s.initialMsg = true →
       (iterStep (iterStep s .disconnect) .pull).phase = .initThrow ∧
       (iterStep (iterStep s .disconnect) .pull).cleanedUp = s.cleanedUp) ∧
    (∀ s : IterState α, s.phase = .awaitingFrame →
       (iterStep s .disconnect).phase = .stuck ∧
       (iterStep s .disconnect).cleanedUp = s.cleanedUp ∧
       (∀ e : IterEvent α, (iterStep (iterStep s .disconnect) e).phase = .stuck ∧
          (iterStep (iterStep s .disconnect) e).delivered = s.delivered ∧
          (iterStep (iterStep s .disconnect) e).cleanedUp = s.cleanedUp)) := by
  refine ⟨?_, ?_, ?_⟩
  · rintro s (hp | ⟨hp, hm⟩) <;> unfold iterStep <;> simp [hp, *]
  · intro s hp hm
    unfold iterStep
    simp [hp, hm]
  · intro s hp
    refine ⟨by unfold iterStep; simp [hp], by unfold iterStep; simp [hp], ?_⟩
    intro e
    cases e <;> unfold iterStep <;> simp [hp]

/-- Witness for C5 amended: disconnect between pulls ends the next pull
normally; disconnect before the first pull of `iter(initialMsg)` makes
that pull throw without cleanup; disconnect during a pending pull
wedges the iteration. -/
theorem C5_disconnect_termination_witness :
    (iterStep (iterStep (iterRun (iterInit Nat) [.pull, .frame 1]) .disconnect) .pull).phase
      = .done ∧
    (iterStep (iterStep (iterInitWithMsg Nat) .disconnect) .pull).phase = .initThrow ∧
    (iterStep (iterRun (iterInit Nat) [.pull]) .disconnect).phase = .stuck :=
  ⟨((C5_disconnect_termination Nat).1 (iterRun (iterInit Nat) [.pull, .frame 1])
      (Or.inl (by decide))).1,
   ((C5_disconnect_termination Nat).2.1 (iterInitWithMsg Nat) (by decide) (by decide)).1,
   ((C5_disconnect_termination Nat).2.2 (iterRun (iterInit Nat) [.pull]) (by decide)).1⟩

/-- C8 counterexample: the classifiers do not all fail closed.  On a
host where `'serviceWorker' in navigator` is false and
`browser.extension` is absent, `isBackgroundPage` throws from its
unguarded Chromium check instead of returning false; on a host where
`browser.runtime` is absent, `isContentScriptPage` throws.  (Only
`isSidepanelPageSync`, whose whole body sits in a `try`/`catch`,
returns false here.) -/
theorem C8_counterexample :
    isBackgroundPage badHost
      = .error "Cannot read properties of undefined (reading 'getViews')" ∧
    isContentScriptPage badHost
      = .error "Cannot read properties of undefined (reading 'id')" ∧
    isSidepanelPageSync badHost = false := by
  refine ⟨rfl, rfl, rfl⟩

/-- C8 amended: `isSidepanelPageSync` always returns a boolean — any
failure inside its guarded body yields `false`.  `isBackgroundPage` and
`isContentScriptPage` return booleans except through their unguarded
prologues: `isBackgroundPage` throws exactly when the `navigator`
global is absent, or when `'serviceWorker' in navigator` is false and
`browser.extension` is absent; `isContentScriptPage` throws exactly
when `browser.runtime` is absent.  Failures inside `isBackgroundPage`'s
guarded Firefox branch yield a boolean (false on failure), not a
throw. -/
theorem C8_classifier_fail_closed (h : Host) :
    ((isBackgroundPage h).isOk = false ↔
       h.navigator = none ∨ (h.navigator = some false ∧ h.extensionGetViews = none)) ∧
    ((isContentScriptPage h).isOk = false ↔ h.runtimeId = none) ∧
    (∀ msg : String, isSidepanelPageSyncTry h = .error msg → isSidepanelPageSync h = false) ∧
    (∀ msg : String, h.navigator = some true → isBackgroundPageTry h = .error msg →
       isBackgroundPage h = .ok false) := by
  refine ⟨?_, ?_, ?_, ?_⟩
  · unfold isBackgroundPage
    cases hn : h.navigator with
    | none => simp [Except.isOk, Except.toBool]
    | some sw =>
      cases sw with
      | true => simp [Except.isOk, Except.toBool]
      | false =>
        cases hg : h.extensionGetViews with
        | none => simp [Except.isOk, Except.toBool]
        | some gv => cases gv <;> simp [Except.isOk, Except.toBool]
  · unfold isContentScriptPage
    cases hr : h.runtimeId with
    | none => simp [Except.isOk, Except.toBool]
    | some rid => simp [Except.isOk, Except.toBool]
  · intro msg hmsg
    unfold isSidepanelPageSync
    simp [hmsg]
  · intro msg hn hmsg
    unfold isBackgroundPage bgFirefoxResult
    simp [hn, hmsg]

/-- Witness for C8 amended at the concrete failing host. -/
theorem C8_classifier_fail_closed_witness :
    ((isBackgroundPage badHost).isOk = false ↔
       badHost.navigator = none ∨
         (badHost.navigator = some false ∧ badHost.extensionGetViews = none)) ∧
    isSidepanelPageSync badHost = false :=
  ⟨(C8_classifier_fail_closed badHost).1,
   (C8_classifier_fail_closed badHost).2.2.1
     "getManifest threw" rfl⟩

end TypedWebext
